import Mathlib

/-!
Verification development for the Backend repository: an Express/Mongoose
content-management API (blogs, testimonials, contact submissions, newsletter
subscribers/uploads/campaigns, JWT login).  Each route handler relevant to the
checked properties is shallowly embedded as a pure Lean function over explicit
list-valued stores; MongoDB queries become decidable predicates, `find().sort()
.skip().limit()` becomes stable sorting plus `drop`/`take`, and `findByIdAndUpdate`
becomes a map over the store.  Absent or falsy query/body parameters are
modelled with `Option` (`none` covers JavaScript `undefined` and other falsy
absences, noted per definition where it matters).
-/

namespace Backend

/-- Case-insensitive substring containment: model of the `$regex`/`$options: 'i'`
search clauses and, per the spec's stated observable equivalence, of `$text`
search over an entity's designated text fields. -/
def strContains (hay needle : String) : Bool :=
  decide (needle.toLower.data <:+: hay.toLower.data)

/-- Stable sort of a result list by the named sort field, descending exactly when
`sortOrder` is the literal string `"desc"` (all handlers build
`{ [sortBy]: sortOrder === 'desc' ? -1 : 1 }`). `sortVal` maps a field name to
the comparable value of a document. -/
def sortDocs (sortVal : String → α → Int) (sortBy sortOrder : String)
    (l : List α) : List α :=
  if sortOrder == "desc" then
    List.insertionSort (fun a b => sortVal sortBy a ≥ sortVal sortBy b) l
  else
    List.insertionSort (fun a b => sortVal sortBy a ≤ sortVal sortBy b) l

/-- Model of `.skip((page - 1) * limit).limit(limit)`. -/
def paginate (page limit : Nat) (l : List α) : List α :=
  (l.drop ((page - 1) * limit)).take limit

/-- Embedded Testimonial document (src/models/Testimonial.js).  `createdAt`
is the timestamp added by `timestamps: true`, used as the default sort key. -/
structure Testimonial where
  name : String
  company : String
  position : Option String
  rating : Int
  testimonial : Option String
  image : Option String
  active : Bool
  featured : Bool
  projectType : Option String
  source : String
  verified : Bool
  createdAt : Nat
  deriving DecidableEq

/-- Query parameters of `GET /api/testimonials/all` (admin listing).  A `none`
models an absent parameter; for `rating` it also models the falsy empty string
(the handler guards with `if (rating)`), while a present `"0"` is truthy and
becomes `some 0`. -/
structure TestimonialAdminParams where
  page : Nat := 1
  limit : Nat := 20
  active : Option String := none
  featured : Option String := none
  rating : Option Int := none
  search : Option String := none
  sortBy : String := "createdAt"
  sortOrder : String := "desc"

/-- The Mongo query object built by the admin listing, as a predicate:
`active === 'true'` / `featured === 'true'` string comparisons, exact
`rating` match (`query.rating = parseInt(rating)`), and `$or` regex search
over name, company and testimonial text. -/
def testimonialAdminMatch (p : TestimonialAdminParams) (t : Testimonial) : Bool :=
  (match p.active with
   | none => true
   | some s => t.active == (s == "true")) &&
  (match p.featured with
   | none => true
   | some s => t.featured == (s == "true")) &&
  (match p.rating with
   | none => true
   | some r => t.rating == r) &&
  (match p.search with
   | none => true
   | some s =>
       strContains t.name s || strContains t.company s ||
       (match t.testimonial with
        | none => false
        | some tx => strContains tx s))

/-- Sortable numeric value of a Testimonial field, for the dynamic
`{ [sortBy]: dir }` sort; fields without a numeric/date interpretation sort as
equal (value 0), preserving input order under the stable sort. -/
def testimonialSortVal (field : String) (t : Testimonial) : Int :=
  if field == "createdAt" then Int.ofNat t.createdAt
  else if field == "rating" then t.rating
  else 0

/-- `GET /api/testimonials/all`: filter, sort, then
`.skip((page-1)*limit).limit(limit)`; the handler returns the page as a plain
array. -/
def testimonialAdminListing (db : List Testimonial) (p : TestimonialAdminParams) :
    List Testimonial :=
  paginate p.page p.limit
    (sortDocs testimonialSortVal p.sortBy p.sortOrder
      (db.filter (testimonialAdminMatch p)))

/-- Query parameters of `GET /api/testimonials` (public listing): no `page`,
no `search`, no caller-controlled `active`. -/
structure TestimonialPublicParams where
  limit : Nat := 10
  featured : Option String := none
  rating : Option Int := none
  sortBy : String := "createdAt"
  sortOrder : String := "desc"

/-- The Mongo query object of the public listing: it starts from
`{ active: true }` and adds `featured === 'true'` and
`rating: { $gte: parseInt(rating) }`. -/
def testimonialPublicMatch (p : TestimonialPublicParams) (t : Testimonial) : Bool :=
  t.active == true &&
  (match p.featured with
   | none => true
   | some s => t.featured == (s == "true")) &&
  (match p.rating with
   | none => true
   | some r => decide (r ≤ t.rating))

/-- `GET /api/testimonials`: filter (with the forced `active: true`), sort,
then `.limit(limit)` with no skip. -/
def testimonialPublicListing (db : List Testimonial) (p : TestimonialPublicParams) :
    List Testimonial :=
  (sortDocs testimonialSortVal p.sortBy p.sortOrder
    (db.filter (testimonialPublicMatch p))).take p.limit

theorem mem_sortDocs (sortVal : String → α → Int) (sortBy sortOrder : String)
    (l : List α) (t : α) : t ∈ sortDocs sortVal sortBy sortOrder l ↔ t ∈ l := by
  unfold sortDocs
  split
  · exact List.mem_insertionSort _
  · exact List.mem_insertionSort _

theorem length_sortDocs (sortVal : String → α → Int) (sortBy sortOrder : String)
    (l : List α) : (sortDocs sortVal sortBy sortOrder l).length = l.length := by
  unfold sortDocs
  split
  · exact List.length_insertionSort _ _
  · exact List.length_insertionSort _ _

theorem paginate_first_page (limit : Nat) (l : List α) (h : l.length ≤ limit) :
    paginate 1 limit l = l := by
  unfold paginate
  simp [List.take_of_length_le h]

theorem mem_listing_of_fits (q : α → Bool) (sortVal : String → α → Int)
    (sortBy sortOrder : String) (db : List α) (limit : Nat)
    (h : (db.filter q).length ≤ limit) (t : α) :
    t ∈ paginate 1 limit (sortDocs sortVal sortBy sortOrder (db.filter q)) ↔
      t ∈ db ∧ q t := by
  rw [paginate_first_page limit _ (by rw [length_sortDocs]; exact h),
    mem_sortDocs, List.mem_filter]

/-- An inactive five-star testimonial: not returned by the public listing even
when its rating meets the requested minimum. -/
def inactiveFiveStar : Testimonial :=
  { name := "Ava", company := "Acme", position := none, rating := 5,
    testimonial := none, image := none, active := false, featured := false,
    projectType := none, source := "website", verified := false, createdAt := 0 }

/-- C1, counterexample: on a store holding one inactive testimonial with rating
5, a public listing request carrying rating 4 returns nothing, so the returned
records are not exactly those with rating at least 4: the public listing also
forces `active == true`. -/
theorem testimonialPublicRating_not_exactly_ge :
    inactiveFiveStar ∈ [inactiveFiveStar] ∧ (4 : Int) ≤ inactiveFiveStar.rating ∧
    inactiveFiveStar ∉
      testimonialPublicListing [inactiveFiveStar] { rating := some 4 } := by
  decide

/-- C1 (amended): for an admin listing request carrying a rating parameter `r`
and no other filters, whose first page holds all matches, the returned records
are exactly those with rating equal to `r`; for a public listing request
carrying rating `r` and no featured filter, whose limit holds all matches, the
returned records are exactly the ACTIVE records with rating at least `r` (the
public endpoint forces `active == true` on top of the at-least rating
semantics). -/
theorem testimonialRatingFilter_asymmetric
    (db : List Testimonial) (r : Int)
    (pa : TestimonialAdminParams) (pp : TestimonialPublicParams)
    (ha1 : pa.active = none) (ha2 : pa.featured = none) (ha3 : pa.search = none)
    (ha4 : pa.rating = some r) (ha5 : pa.page = 1)
    (ha6 : (db.filter (testimonialAdminMatch pa)).length ≤ pa.limit)
    (hp1 : pp.featured = none) (hp2 : pp.rating = some r)
    (hp3 : (db.filter (testimonialPublicMatch pp)).length ≤ pp.limit) :
    (∀ t, t ∈ testimonialAdminListing db pa ↔ t ∈ db ∧ t.rating = r) ∧
    (∀ t, t ∈ testimonialPublicListing db pp ↔
        t ∈ db ∧ t.active = true ∧ r ≤ t.rating) := by
  constructor
  · intro t
    unfold testimonialAdminListing
    rw [ha5, mem_listing_of_fits _ _ _ _ _ _ ha6]
    unfold testimonialAdminMatch
    rw [ha1, ha2, ha3, ha4]
    simp
  · intro t
    unfold testimonialPublicListing
    rw [List.take_of_length_le (by rw [length_sortDocs]; exact hp3),
      mem_sortDocs, List.mem_filter]
    unfold testimonialPublicMatch
    rw [hp1, hp2]
    simp

/-- An active five-star testimonial used to instantiate the listing theorems. -/
def activeFiveStar : Testimonial :=
  { name := "Bea", company := "Blix", position := none, rating := 5,
    testimonial := none, image := none, active := true, featured := false,
    projectType := none, source := "website", verified := false, createdAt := 1 }

/-- An active three-star testimonial used to instantiate the listing theorems. -/
def activeThreeStar : Testimonial :=
  { name := "Cy", company := "Core", position := none, rating := 3,
    testimonial := none, image := none, active := true, featured := false,
    projectType := none, source := "website", verified := false, createdAt := 2 }

theorem testimonialRatingFilter_asymmetric_witness :
    (([activeFiveStar, activeThreeStar].filter
        (testimonialAdminMatch { rating := some 4 })).length ≤
        TestimonialAdminParams.limit { rating := some 4 } ∧
     ([activeFiveStar, activeThreeStar].filter
        (testimonialPublicMatch { rating := some 4 })).length ≤
        TestimonialPublicParams.limit { rating := some 4 }) ∧
    ((activeFiveStar ∈
        testimonialAdminListing [activeFiveStar, activeThreeStar]
          { rating := some 4 } ↔
      activeFiveStar ∈ [activeFiveStar, activeThreeStar] ∧
        activeFiveStar.rating = 4) ∧
     (activeFiveStar ∈
        testimonialPublicListing [activeFiveStar, activeThreeStar]
          { rating := some 4 } ↔
      activeFiveStar ∈ [activeFiveStar, activeThreeStar] ∧
        activeFiveStar.active = true ∧ 4 ≤ activeFiveStar.rating)) :=
  ⟨⟨by decide, by decide⟩,
   (testimonialRatingFilter_asymmetric [activeFiveStar, activeThreeStar] 4
      { rating := some 4 } { rating := some 4 }
      rfl rfl rfl rfl rfl (by decide) rfl rfl (by decide)).1 activeFiveStar,
   (testimonialRatingFilter_asymmetric [activeFiveStar, activeThreeStar] 4
      { rating := some 4 } { rating := some 4 }
      rfl rfl rfl rfl rfl (by decide) rfl rfl (by decide)).2 activeFiveStar⟩

/-- C2: every record returned by the public testimonial listing has
`active = true`, for every choice of filter parameters (featured, rating,
sort, limit): the handler seeds its query with `{ active: true }`. -/
theorem testimonialPublicListing_only_active (db : List Testimonial)
    (p : TestimonialPublicParams) (t : Testimonial)
    (ht : t ∈ testimonialPublicListing db p) : t.active = true := by
  unfold testimonialPublicListing at ht
  have h1 := List.mem_of_mem_take ht
  rw [mem_sortDocs, List.mem_filter] at h1
  have h2 := h1.2
  unfold testimonialPublicMatch at h2
  simp only [Bool.and_eq_true, beq_iff_eq] at h2
  exact h2.1.1

theorem testimonialPublicListing_only_active_witness :
    activeFiveStar ∈
      testimonialPublicListing [activeFiveStar, inactiveFiveStar]
        ({} : TestimonialPublicParams) ∧
    activeFiveStar.active = true :=
  ⟨by decide,
   testimonialPublicListing_only_active [activeFiveStar, inactiveFiveStar]
     ({} : TestimonialPublicParams) activeFiveStar (by decide)⟩

/-- Embedded Blog document (src/models/Blog.js), restricted to the fields the
list endpoint reads; `createdAt` is the `timestamps: true` creation stamp. -/
structure Blog where
  title : String
  content : String
  author : String
  category : String
  tags : List String
  image : Option String
  featured : Bool
  status : String
  publishDate : Option Nat
  views : Nat
  likes : Nat
  createdAt : Nat
  deriving DecidableEq

/-- Query parameters of `GET /api/blogs`.  `none` models an absent (or falsy
empty-string) parameter; the handler guards `status`/`category` with plain
truthiness and `featured` with `!== undefined`. -/
structure BlogListParams where
  page : Nat := 1
  limit : Nat := 10
  status : Option String := none
  category : Option String := none
  featured : Option String := none
  search : Option String := none
  sortBy : String := "createdAt"
  sortOrder : String := "desc"

/-- The Mongo query object built by `GET /api/blogs`, as a predicate: equality
on `status` and `category`, `featured === 'true'`, and `$text` search over the
indexed fields (title, content, tags), modelled per the spec's observable
equivalence as case-insensitive containment. -/
def blogMatch (p : BlogListParams) (b : Blog) : Bool :=
  (match p.status with
   | none => true
   | some s => b.status == s) &&
  (match p.category with
   | none => true
   | some c => b.category == c) &&
  (match p.featured with
   | none => true
   | some f => b.featured == (f == "true")) &&
  (match p.search with
   | none => true
   | some s =>
       strContains b.title s || strContains b.content s ||
       b.tags.any (fun tg => strContains tg s))

/-- Sortable numeric value of a Blog field for the dynamic `{ [sortBy]: dir }`
sort; fields without a numeric/date interpretation sort as equal (value 0). -/
def blogSortVal (field : String) (b : Blog) : Int :=
  if field == "createdAt" then Int.ofNat b.createdAt
  else if field == "views" then Int.ofNat b.views
  else if field == "likes" then Int.ofNat b.likes
  else if field == "publishDate" then
    (match b.publishDate with
     | none => 0
     | some d => Int.ofNat d)
  else 0

/-- Response shape of `GET /api/blogs`. -/
structure BlogListResponse where
  blogs : List Blog
  totalPages : Nat
  currentPage : Nat
  totalBlogs : Nat
  deriving DecidableEq

/-- `GET /api/blogs`: filter, sort, `.skip((page-1)*limit).limit(limit)`, and
`countDocuments(query)` for the total.  `(total + limit - 1) / limit` is
`Math.ceil(total / limit)` for `limit ≥ 1` (the handler divides the two
integers as JavaScript numbers and takes the ceiling). -/
def blogListing (db : List Blog) (p : BlogListParams) : BlogListResponse :=
  let matched := db.filter (blogMatch p)
  let sorted := sortDocs blogSortVal p.sortBy p.sortOrder matched
  let total := matched.length
  { blogs := paginate p.page p.limit sorted
    totalPages := (total + p.limit - 1) / p.limit
    currentPage := p.page
    totalBlogs := total }

/-- C3: for page ≥ 1 and limit ≥ 1, the blog listing returns the sorted
matching records with the first `(page-1)*limit` skipped and at most `limit`
kept, reports `totalBlogs` as the count of ALL matching records and
`totalPages` as the ceiling of `totalBlogs / limit` (characterised as the
least `n` with `totalBlogs ≤ n * limit`); and with limit 10 and page 2 on 25
matching records the response is exactly records 11 through 20 of the sort
order with `totalPages = 3`. -/
theorem blogListing_paginates (db : List Blog) (p : BlogListParams)
    (_hp : 1 ≤ p.page) (hl : 1 ≤ p.limit) :
    (blogListing db p).blogs =
      ((sortDocs blogSortVal p.sortBy p.sortOrder
          (db.filter (blogMatch p))).drop ((p.page - 1) * p.limit)).take p.limit ∧
    (blogListing db p).blogs.length ≤ p.limit ∧
    (blogListing db p).totalBlogs = (db.filter (blogMatch p)).length ∧
    (blogListing db p).totalBlogs ≤ (blogListing db p).totalPages * p.limit ∧
    (blogListing db p).totalPages * p.limit <
      (blogListing db p).totalBlogs + p.limit ∧
    ((db.filter (blogMatch p)).length = 25 → p.limit = 10 → p.page = 2 →
      (blogListing db p).blogs =
        ((sortDocs blogSortVal p.sortBy p.sortOrder
            (db.filter (blogMatch p))).drop 10).take 10 ∧
      (blogListing db p).totalPages = 3) := by
  refine ⟨rfl, ?_, rfl, ?_, ?_, ?_⟩
  · exact List.length_take_le _ _
  · show (db.filter (blogMatch p)).length ≤
      ((db.filter (blogMatch p)).length + p.limit - 1) / p.limit * p.limit
    have h := Nat.lt_div_mul_add
      (a := (db.filter (blogMatch p)).length + p.limit - 1)
      (Nat.lt_of_lt_of_le Nat.zero_lt_one hl)
    omega
  · show ((db.filter (blogMatch p)).length + p.limit - 1) / p.limit * p.limit <
      (db.filter (blogMatch p)).length + p.limit
    have h := Nat.div_mul_le_self
      ((db.filter (blogMatch p)).length + p.limit - 1) p.limit
    omega
  · intro hc hlim hpage
    constructor
    · show paginate p.page p.limit _ = _
      rw [hlim, hpage]
      rfl
    · show ((db.filter (blogMatch p)).length + p.limit - 1) / p.limit = 3
      rw [hc, hlim]

/-- A concrete blog used to build the 25-record store instantiating C3. -/
def mkBlog (i : Nat) : Blog :=
  { title := "t", content := "c", author := "a", category := "g", tags := [],
    image := none, featured := false, status := "published",
    publishDate := none, views := 0, likes := 0, createdAt := i }

/-- The 25-record blog store for the C3 instantiation. -/
def blogDb25 : List Blog := (List.range 25).map mkBlog

theorem blogListing_paginates_witness :
    (1 ≤ BlogListParams.page { page := 2, limit := 10 } ∧
     1 ≤ BlogListParams.limit { page := 2, limit := 10 } ∧
     (blogDb25.filter (blogMatch { page := 2, limit := 10 })).length = 25) ∧
    ((blogListing blogDb25 { page := 2, limit := 10 }).blogs =
       ((sortDocs blogSortVal "createdAt" "desc"
           (blogDb25.filter (blogMatch { page := 2, limit := 10 }))).drop
           10).take 10 ∧
     (blogListing blogDb25 { page := 2, limit := 10 }).totalPages = 3) :=
  ⟨⟨by decide, by decide, by decide⟩,
   (blogListing_paginates blogDb25 { page := 2, limit := 10 }
      (by decide) (by decide)).2.2.2.2.2 (by decide) rfl rfl⟩

/-- Embedded ContactSubmission document (src/models/ContactSubmission.js),
with a surrogate `id` standing for the Mongo `_id` addressed by
`findByIdAndUpdate`. -/
structure ContactSubmission where
  id : Nat
  name : String
  email : String
  phone : Option String
  subject : String
  message : String
  read : Bool
  replied : Bool
  priority : String
  source : String
  deriving DecidableEq

/-- The update applied by `PUT /api/contact-submissions/:id/replied`: one
`findByIdAndUpdate` carrying `{ replied, read: true }`, so `read` is set to
true unconditionally in the same update as `replied`. -/
def markReplied (repliedParam : Bool) (s : ContactSubmission) : ContactSubmission :=
  { s with replied := repliedParam, read := true }

/-- `PUT /api/contact-submissions/:id/replied`: the body field defaults to
true (`const { replied = true } = req.body`); `findByIdAndUpdate` applies
`markReplied` to the record with the given id and returns the updated record
(`new: true`), or leaves the store untouched and reports not-found. -/
def putReplied (db : List ContactSubmission) (id : Nat)
    (repliedParam : Option Bool) :
    List ContactSubmission × Option ContactSubmission :=
  let r := repliedParam.getD true
  match db.find? (fun s => s.id == id) with
  | none => (db, none)
  | some s =>
      (db.map (fun t => if t.id == id then markReplied r t else t),
       some (markReplied r s))

/-- C4: marking an existing ContactSubmission replied with `replied = true`
stores `replied = true` and `read = true`, both set by the single update: the
returned record and every stored record with that id satisfy both. -/
theorem putReplied_true_sets_read (db : List ContactSubmission) (id : Nat)
    (s : ContactSubmission) (hs : s ∈ db) (hid : s.id = id) :
    (∃ u, (putReplied db id (some true)).2 = some u ∧
        u.replied = true ∧ u.read = true) ∧
    (∀ t, t ∈ (putReplied db id (some true)).1 → t.id = id →
        t.replied = true ∧ t.read = true) := by
  constructor
  · have hfind : (db.find? (fun v => v.id == id)).isSome := by
      rw [List.find?_isSome]
      exact ⟨s, hs, by simp [hid]⟩
    match hmatch : db.find? (fun v => v.id == id) with
    | none => rw [hmatch] at hfind; simp at hfind
    | some v =>
        refine ⟨markReplied true v, ?_, rfl, rfl⟩
        unfold putReplied
        rw [hmatch]
        rfl
  · intro t ht htid
    unfold putReplied at ht
    match hmatch : db.find? (fun v => v.id == id) with
    | none =>
        have h2 := List.find?_eq_none.mp hmatch s hs
        simp [hid] at h2
    | some v =>
        rw [hmatch] at ht
        simp only [List.mem_map] at ht
        obtain ⟨w, _, hw⟩ := ht
        rw [← hw]
        by_cases hc : w.id = id
        · simp [hc, markReplied]
        · rw [if_neg (by simp [hc])] at hw
          rw [hw] at hc
          exact absurd htid hc

/-- A fresh, unread, unreplied contact submission with id 7. -/
def submission7 : ContactSubmission :=
  { id := 7, name := "Dee", email := "d@x.io", phone := none,
    subject := "Hi", message := "Hello", read := false, replied := false,
    priority := "medium", source := "website" }

theorem putReplied_true_sets_read_witness :
    (submission7 ∈ [submission7] ∧ submission7.id = 7) ∧
    ((∃ u, (putReplied [submission7] 7 (some true)).2 = some u ∧
        u.replied = true ∧ u.read = true) ∧
     (∀ t, t ∈ (putReplied [submission7] 7 (some true)).1 → t.id = 7 →
        t.replied = true ∧ t.read = true)) :=
  ⟨⟨by decide, by decide⟩,
   putReplied_true_sets_read [submission7] 7 submission7 (by decide) (by decide)⟩

/-- C10: the mark-replied endpoint sets `read = true` unconditionally, even
when the body carries `replied = false`: the returned record of such a request
has `read = true` and `replied = false`, and so does every stored record with
that id. -/
theorem putReplied_false_still_marks_read (db : List ContactSubmission)
    (id : Nat) (s : ContactSubmission) (hs : s ∈ db) (hid : s.id = id) :
    (∃ u, (putReplied db id (some false)).2 = some u ∧
        u.read = true ∧ u.replied = false) ∧
    (∀ t, t ∈ (putReplied db id (some false)).1 → t.id = id →
        t.read = true ∧ t.replied = false) := by
  constructor
  · have hfind : (db.find? (fun v => v.id == id)).isSome := by
      rw [List.find?_isSome]
      exact ⟨s, hs, by simp [hid]⟩
    match hmatch : db.find? (fun v => v.id == id) with
    | none => rw [hmatch] at hfind; simp at hfind
    | some v =>
        refine ⟨markReplied false v, ?_, rfl, rfl⟩
        unfold putReplied
        rw [hmatch]
        rfl
  · intro t ht htid
    unfold putReplied at ht
    match hmatch : db.find? (fun v => v.id == id) with
    | none =>
        have h2 := List.find?_eq_none.mp hmatch s hs
        simp [hid] at h2
    | some v =>
        rw [hmatch] at ht
        simp only [List.mem_map] at ht
        obtain ⟨w, _, hw⟩ := ht
        rw [← hw]
        by_cases hc : w.id = id
        · simp [hc, markReplied]
        · rw [if_neg (by simp [hc])] at hw
          rw [hw] at hc
          exact absurd htid hc

/-- A read, replied contact submission with id 9, to show the not-replied
request still leaves it read. -/
def submission9 : ContactSubmission :=
  { id := 9, name := "Eli", email := "e@x.io", phone := none,
    subject := "Yo", message := "Hey", read := true, replied := true,
    priority := "high", source := "website" }

theorem putReplied_false_still_marks_read_witness :
    (submission9 ∈ [submission9] ∧ submission9.id = 9) ∧
    ((∃ u, (putReplied [submission9] 9 (some false)).2 = some u ∧
        u.read = true ∧ u.replied = false) ∧
     (∀ t, t ∈ (putReplied [submission9] 9 (some false)).1 → t.id = 9 →
        t.read = true ∧ t.replied = false)) :=
  ⟨⟨by decide, by decide⟩,
   putReplied_false_still_marks_read [submission9] 9 submission9
     (by decide) (by decide)⟩

/-- Embedded NewsletterSubscriber document (src/models/Newsletter.js), with a
surrogate `id` for the Mongo `_id`.  `email` is schema-unique. -/
structure NewsletterSubscriber where
  id : Nat
  email : String
  name : Option String
  unsubscribed : Bool
  unsubscribedAt : Option Nat
  source : String
  deriving DecidableEq

/-- Outcome of `POST /api/newsletter/subscribers`. -/
inductive SubscribeResult where
  | missingEmail
  | alreadySubscribed
  | resubscribed (subscriber : NewsletterSubscriber)
  | subscribed (subscriber : NewsletterSubscriber)
  deriving DecidableEq

/-- Handling of `POST /api/newsletter/subscribers` once the email field is
present: reject a falsy (empty) email; on an existing subscriber
(`findOne(\x7b email \x7d)`), resubscribe if previously unsubscribed (clearing
`unsubscribed` and `unsubscribedAt` on that record, addressed by its unique
email) or reject as already subscribed; otherwise insert a new subscriber. -/
def subscribeEmail (db : List NewsletterSubscriber) (e : String)
    (name : Option String) (source : String) (newId : Nat) :
    List NewsletterSubscriber × SubscribeResult :=
  if e == "" then (db, .missingEmail)
  else
    match db.find? (fun s => s.email == e) with
    | some s =>
        if s.unsubscribed then
          (db.map (fun t =>
             if t.email == e then
               { t with unsubscribed := false, unsubscribedAt := none }
             else t),
           .resubscribed { s with unsubscribed := false, unsubscribedAt := none })
        else (db, .alreadySubscribed)
    | none =>
        let s : NewsletterSubscriber :=
          { id := newId, email := e, name := name, unsubscribed := false,
            unsubscribedAt := none, source := source }
        (db ++ [s], .subscribed s)

/-- `POST /api/newsletter/subscribers`: `if (!email)` rejects an absent email,
otherwise `subscribeEmail` runs. -/
def subscribeNewsletter (db : List NewsletterSubscriber)
    (email : Option String) (name : Option String) (source : String)
    (newId : Nat) : List NewsletterSubscriber × SubscribeResult :=
  match email with
  | none => (db, .missingEmail)
  | some e => subscribeEmail db e name source newId

/-- C5: subscribing an email that already exists fails with AlreadySubscribed
and leaves the store untouched when that subscriber is active
(`unsubscribed = false`); when the subscriber had unsubscribed, the request
succeeds as a resubscription whose result record, and every stored record
with that email, has `unsubscribed = false` and a cleared `unsubscribedAt`. -/
theorem subscribeNewsletter_existing (db : List NewsletterSubscriber)
    (e : String) (name : Option String) (source : String) (newId : Nat)
    (s : NewsletterSubscriber) (he : e ≠ "")
    (hfind : db.find? (fun v => v.email == e) = some s) :
    (s.unsubscribed = false →
      subscribeNewsletter db (some e) name source newId =
        (db, .alreadySubscribed)) ∧
    (s.unsubscribed = true →
      (subscribeNewsletter db (some e) name source newId).2 =
        .resubscribed { s with unsubscribed := false, unsubscribedAt := none } ∧
      (∀ t, t ∈ (subscribeNewsletter db (some e) name source newId).1 →
          t.email = e → t.unsubscribed = false ∧ t.unsubscribedAt = none)) := by
  constructor
  · intro hu
    show subscribeEmail db e name source newId = _
    unfold subscribeEmail
    rw [if_neg (by simp [he]), hfind]
    simp [hu]
  · intro hu
    constructor
    · show (subscribeEmail db e name source newId).2 = _
      unfold subscribeEmail
      rw [if_neg (by simp [he]), hfind]
      simp [hu]
    · intro t ht hte
      have ht2 : t ∈ (subscribeEmail db e name source newId).1 := ht
      unfold subscribeEmail at ht2
      rw [if_neg (by simp [he]), hfind] at ht2
      simp only [hu, eq_self_iff_true, if_true, List.mem_map] at ht2
      obtain ⟨w, _, hw⟩ := ht2
      by_cases hc : w.email = e
      · rw [if_pos (by simp [hc])] at hw
        rw [← hw]
        exact ⟨rfl, rfl⟩
      · rw [if_neg (by simp [hc])] at hw
        rw [hw] at hc
        exact absurd hte hc

/-- A subscriber who unsubscribed at time 50. -/
def lapsedSubscriber : NewsletterSubscriber :=
  { id := 3, email := "lee@x.io", name := none, unsubscribed := true,
    unsubscribedAt := some 50, source := "website" }

theorem subscribeNewsletter_existing_witness :
    ("lee@x.io" ≠ "" ∧
     [lapsedSubscriber].find? (fun v => v.email == "lee@x.io") =
       some lapsedSubscriber) ∧
    ((lapsedSubscriber.unsubscribed = false →
       subscribeNewsletter [lapsedSubscriber] (some "lee@x.io") none "website" 4 =
         ([lapsedSubscriber], .alreadySubscribed)) ∧
     (lapsedSubscriber.unsubscribed = true →
       (subscribeNewsletter [lapsedSubscriber] (some "lee@x.io") none
           "website" 4).2 =
         .resubscribed
           { lapsedSubscriber with unsubscribed := false, unsubscribedAt := none } ∧
       (∀ t, t ∈ (subscribeNewsletter [lapsedSubscriber] (some "lee@x.io") none
             "website" 4).1 →
           t.email = "lee@x.io" →
           t.unsubscribed = false ∧ t.unsubscribedAt = none))) :=
  ⟨⟨by decide, by decide⟩,
   subscribeNewsletter_existing [lapsedSubscriber] "lee@x.io" none "website" 4
     lapsedSubscriber (by decide) (by decide)⟩

/-- Body of `POST /api/testimonials`.  `Option` models absent body fields;
the handler checks `name`, `company` and `rating` with JavaScript truthiness,
so an empty string (for the strings) and the number 0 (for the rating) also
count as missing. -/
structure TestimonialCreateBody where
  name : Option String := none
  company : Option String := none
  position : Option String := none
  rating : Option Int := none
  testimonial : Option String := none
  image : Option String := none
  active : Bool := true
  featured : Bool := false
  projectType : Option String := none
  source : String := "website"
  verified : Bool := false

/-- JavaScript falsiness of an optional string body field (`!x` is true for
`undefined` and the empty string). -/
def strFalsy : Option String → Bool
  | none => true
  | some s => s == ""

/-- JavaScript falsiness of an optional numeric body field (`!x` is true for
`undefined` and 0). -/
def numFalsy : Option Int → Bool
  | none => true
  | some n => n == 0

/-- Outcome of `POST /api/testimonials`; the two error cases are the
handler's 400 validation responses. -/
inductive CreateTestimonialResult where
  | missingRequired
  | ratingOutOfRange
  | created (t : Testimonial)
  deriving DecidableEq

/-- `POST /api/testimonials`: reject when `name`, `company` or `rating` is
falsy, then reject a rating below 1 or above 5, otherwise save the new
document. -/
def createTestimonial (db : List Testimonial) (b : TestimonialCreateBody)
    (createdAt : Nat) : List Testimonial × CreateTestimonialResult :=
  if strFalsy b.name || strFalsy b.company || numFalsy b.rating then
    (db, .missingRequired)
  else
    let r := b.rating.getD 0
    if r < 1 ∨ r > 5 then (db, .ratingOutOfRange)
    else
      let t : Testimonial :=
        { name := b.name.getD "", company := b.company.getD "",
          position := b.position, rating := r, testimonial := b.testimonial,
          image := b.image, active := b.active, featured := b.featured,
          projectType := b.projectType, source := b.source,
          verified := b.verified, createdAt := createdAt }
      (db ++ [t], .created t)

/-- C6: creating a testimonial with a rating outside [1,5] (rating 0 lands in
the missing-required-fields branch, any other out-of-range value in the
rating-range branch; both are 400 validation errors) stores nothing; and every
successfully created testimonial has rating in [1,5], appended as the only
change to the store. -/
theorem createTestimonial_rating_validated (db : List Testimonial)
    (b : TestimonialCreateBody) (createdAt : Nat) (r : Int)
    (hr : b.rating = some r) :
    ((r < 1 ∨ 5 < r) →
      (createTestimonial db b createdAt).1 = db ∧
      ∀ t, (createTestimonial db b createdAt).2 ≠ .created t) ∧
    (∀ t, (createTestimonial db b createdAt).2 = .created t →
      1 ≤ t.rating ∧ t.rating ≤ 5 ∧
      (createTestimonial db b createdAt).1 = db ++ [t]) := by
  constructor
  · intro hout
    unfold createTestimonial
    by_cases hm : strFalsy b.name || strFalsy b.company || numFalsy b.rating
    · rw [if_pos hm]
      exact ⟨rfl, fun t h => CreateTestimonialResult.noConfusion h⟩
    · rw [if_neg hm, hr]
      have : (some r).getD 0 = r := rfl
      rw [this, if_pos (by omega)]
      exact ⟨rfl, fun t h => CreateTestimonialResult.noConfusion h⟩
  · intro t hok
    unfold createTestimonial at hok ⊢
    by_cases hm : strFalsy b.name || strFalsy b.company || numFalsy b.rating
    · rw [if_pos hm] at hok
      exact absurd hok (fun h => CreateTestimonialResult.noConfusion h)
    · rw [if_neg hm, hr] at hok ⊢
      have hg : (some r).getD 0 = r := rfl
      rw [hg] at hok ⊢
      by_cases ho : r < 1 ∨ r > 5
      · rw [if_pos ho] at hok
        exact absurd hok (fun h => CreateTestimonialResult.noConfusion h)
      · rw [if_neg ho] at hok ⊢
        have ht := CreateTestimonialResult.created.inj hok
        rw [← ht]
        exact ⟨by simp; omega, by simp; omega, rfl⟩

theorem createTestimonial_rating_validated_witness :
    (TestimonialCreateBody.rating
        { name := some "Fay", company := some "Fern", rating := some 6 } =
      some 6) ∧
    (((6 : Int) < 1 ∨ (5 : Int) < 6 →
      (createTestimonial []
          { name := some "Fay", company := some "Fern", rating := some 6 }
          0).1 = [] ∧
      ∀ t, (createTestimonial []
          { name := some "Fay", company := some "Fern", rating := some 6 }
          0).2 ≠ .created t) ∧
     (∀ t, (createTestimonial []
          { name := some "Fay", company := some "Fern", rating := some 6 }
          0).2 = .created t →
        1 ≤ t.rating ∧ t.rating ≤ 5 ∧
        (createTestimonial []
            { name := some "Fay", company := some "Fern", rating := some 6 }
            0).1 = [] ++ [t])) :=
  ⟨by decide,
   createTestimonial_rating_validated []
     { name := some "Fay", company := some "Fern", rating := some 6 } 0 6
     (by decide)⟩

/-- Embedded NewsletterUpload document (src/models/Newsletter.js), with a
surrogate `id` for the Mongo `_id`. -/
structure NewsletterUpload where
  id : Nat
  name : String
  category : String
  date : Nat
  filename : String
  originalName : String
  fileSize : Nat
  downloadCount : Nat
  active : Bool
  deriving DecidableEq

/-- Outcome of `GET /api/newsletter/uploads/:id/download`: record absent
(404 Newsletter not found), record present but backing file absent on disk
(404 File not found), or the file is sent. -/
inductive DownloadResult where
  | recordNotFound
  | fileNotFound
  | fileSent (filename originalName : String)
  deriving DecidableEq

/-- `GET /api/newsletter/uploads/:id/download`: find the record; if present,
increment `downloadCount` and SAVE it, and only then check whether the backing
file exists on disk (`fs.pathExists`), answering File-not-found or sending the
file.  `diskFiles` models the set of filenames present in the uploads
directory. -/
def downloadNewsletterUpload (db : List NewsletterUpload)
    (diskFiles : List String) (id : Nat) :
    List NewsletterUpload × DownloadResult :=
  match db.find? (fun n => n.id == id) with
  | none => (db, .recordNotFound)
  | some n =>
      let db2 := db.map (fun m =>
        if m.id == id then { m with downloadCount := m.downloadCount + 1 }
        else m)
      if diskFiles.contains n.filename then
        (db2, .fileSent n.filename n.originalName)
      else (db2, .fileNotFound)

/-- An uploaded newsletter record whose backing file is not on disk. -/
def orphanUpload : NewsletterUpload :=
  { id := 1, name := "June", category := "monthly", date := 10,
    filename := "newsletter-1.pdf", originalName := "june.pdf",
    fileSize := 100, downloadCount := 0, active := true }

/-- C7, counterexample: with one record whose backing file is absent on disk,
the download request fails with File-not-found, yet the stored record's
`downloadCount` is incremented from 0 to 1: the handler saves the increment
before checking that the file exists, so a failed download does NOT leave
`downloadCount` unchanged. -/
theorem downloadCount_incremented_on_failed_download :
    (downloadNewsletterUpload [orphanUpload] [] 1).2 = .fileNotFound ∧
    (downloadNewsletterUpload [orphanUpload] [] 1).1 =
      [{ orphanUpload with downloadCount := 1 }] ∧
    (downloadNewsletterUpload [orphanUpload] [] 1).1 ≠ [orphanUpload] := by
  decide

/-- C7 (amended): `downloadCount` increments on every download request whose
record exists, including requests that fail because the backing file is absent
on disk (the increment is saved before the existence check); only a request
whose record does not exist leaves the store unchanged. -/
theorem downloadCount_increments_when_record_exists
    (db : List NewsletterUpload) (diskFiles : List String) (id : Nat) :
    (∀ n, db.find? (fun v => v.id == id) = some n →
      ∀ t, t ∈ (downloadNewsletterUpload db diskFiles id).1 → t.id = id →
        ∃ m, m ∈ db ∧ m.id = id ∧ t = { m with downloadCount := m.downloadCount + 1 }) ∧
    (db.find? (fun v => v.id == id) = none →
      downloadNewsletterUpload db diskFiles id = (db, .recordNotFound)) := by
  constructor
  · intro n hfind t ht htid
    have ht2 : t ∈ (db.map (fun m =>
        if m.id == id then { m with downloadCount := m.downloadCount + 1 }
        else m)) := by
      unfold downloadNewsletterUpload at ht
      simp only [hfind] at ht
      split at ht
      · exact ht
      · exact ht
    simp only [List.mem_map] at ht2
    obtain ⟨w, hwdb, hw⟩ := ht2
    by_cases hc : w.id = id
    · rw [if_pos (by simp [hc])] at hw
      exact ⟨w, hwdb, hc, hw.symm⟩
    · rw [if_neg (by simp [hc])] at hw
      rw [hw] at hc
      exact absurd htid hc
  · intro hfind
    unfold downloadNewsletterUpload
    rw [hfind]

theorem downloadCount_increments_when_record_exists_witness :
    ([orphanUpload].find? (fun v => v.id == 1) = some orphanUpload) ∧
    ((∀ n, [orphanUpload].find? (fun v => v.id == 1) = some n →
      ∀ t, t ∈ (downloadNewsletterUpload [orphanUpload] [] 1).1 → t.id = 1 →
        ∃ m, m ∈ [orphanUpload] ∧ m.id = 1 ∧
          t = { m with downloadCount := m.downloadCount + 1 }) ∧
     ([orphanUpload].find? (fun v => v.id == 1) = none →
      downloadNewsletterUpload [orphanUpload] [] 1 =
        ([orphanUpload], .recordNotFound))) :=
  ⟨by decide, downloadCount_increments_when_record_exists [orphanUpload] [] 1⟩

/-- An incoming multipart file, as multer presents it to the `fileFilter` and
`diskStorage` callbacks (src/routes/blogs.js lines 9-35). -/
structure UploadedFile where
  originalname : String
  mimetype : String
  size : Nat
  deriving DecidableEq

/-- The blog-image `fileFilter`: accept exactly the media types whose name
starts with `image/` (`file.mimetype.startsWith('image/')`, modelled as a
character-list prefix test). -/
def blogImageFileFilter (mimetype : String) : Bool :=
  List.isPrefixOf "image/".data mimetype.data

/-- Model of node's `path.extname` in the common case: the suffix of the name
from its last dot (empty when the name has no dot), as used by the filename
generator. -/
def extname (s : String) : String :=
  if s.data.contains /-dot-/ '.' then
    String.mk ('.' :: (s.data.reverse.takeWhile (fun c => c ≠ '.')).reverse)
  else ""

/-- Outcome of the blog-image upload pipeline. -/
inductive UploadOutcome where
  | invalidFileType
  | fileTooLarge
  | stored (filename : String)
  deriving DecidableEq

/-- The multer pipeline of the blog-image upload (src/routes/blogs.js lines
9-35): `fileFilter` rejects non-image media types before any disk write, the
10 MiB `fileSize` limit rejects oversized files, and an accepted file is
written to the blog-images directory as
`blog-<uniqueSuffix><extname(originalname)>`.  `disk` is the list of stored
filenames; a rejection leaves it untouched. -/
def storeBlogImage (disk : List String) (f : UploadedFile)
    (uniqueSuffix : String) : List String × UploadOutcome :=
  if ¬ blogImageFileFilter f.mimetype then (disk, .invalidFileType)
  else if f.size > 10 * 1024 * 1024 then (disk, .fileTooLarge)
  else
    let fn := "blog-" ++ uniqueSuffix ++ extname f.originalname
    (disk ++ [fn], .stored fn)

/-- C8: uploading a file whose media type does not start with `image/` to the
blog-image endpoint fails with InvalidFileType and writes nothing to disk. -/
theorem storeBlogImage_rejects_non_image (disk : List String)
    (f : UploadedFile) (uniqueSuffix : String)
    (hm : blogImageFileFilter f.mimetype = false) :
    storeBlogImage disk f uniqueSuffix = (disk, .invalidFileType) := by
  unfold storeBlogImage
  rw [if_pos (by simp [hm])]

theorem storeBlogImage_rejects_non_image_witness :
    blogImageFileFilter
        (UploadedFile.mimetype
          { originalname := "a.txt", mimetype := "text/plain", size := 5 }) =
      false ∧
    storeBlogImage ["blog-old.png"]
        { originalname := "a.txt", mimetype := "text/plain", size := 5 } "77" =
      (["blog-old.png"], .invalidFileType) :=
  ⟨by decide,
   storeBlogImage_rejects_non_image ["blog-old.png"]
     { originalname := "a.txt", mimetype := "text/plain", size := 5 } "77"
     (by decide)⟩

/-- Embedded User account.  Modelled from the spec: the `User` mongoose model
(with `isLocked`, `comparePassword`, `incLoginAttempts`, `resetLoginAttempts`)
is not under src/; only its caller `POST /auth/login` is.  Per the spec's Auth
Gate, `lockTime` is the stamped lock timestamp (the account is Locked while
lock timestamp + lock duration > now), `loginAttempts` the consecutive-failure
counter, and `comparePassword` is equality with the stored secret. -/
structure User where
  id : String
  username : String
  password : String
  email : String
  role : String
  active : Bool
  loginAttempts : Nat
  lockTime : Option Nat
  lastLogin : Option Nat
  deriving DecidableEq

/-- Modelled from the spec: the account transitions to Locked after five
consecutive failed logins. -/
def lockThreshold : Nat := 5

/-- Modelled from the spec: `user.isLocked()` holds while
lock timestamp + lock duration > now. -/
def isLocked (lockDuration now : Nat) (u : User) : Bool :=
  match u.lockTime with
  | some t => decide (now < t + lockDuration)
  | none => false

/-- Base value of the failure counter before a new failed attempt: an account
whose lock has been stamped restarts from 0 once the window question arises
(the spec's `Locked -(lock duration elapses)-> Active(attempts=0)`), otherwise
the current consecutive count continues. -/
def failCounterBase (u : User) : Nat :=
  match u.lockTime with
  | some _ => 0
  | none => u.loginAttempts

/-- Modelled from the spec: `user.incLoginAttempts()` — a credential mismatch
increments the consecutive-failure counter; when it reaches the threshold the
account transitions to Locked and the lock time is stamped. -/
def incLoginAttempts (lockDuration now : Nat) (u : User) : User :=
  if isLocked lockDuration now u then
    { u with loginAttempts := u.loginAttempts + 1 }
  else if lockThreshold ≤ failCounterBase u + 1 then
    { u with loginAttempts := failCounterBase u + 1, lockTime := some now }
  else
    { u with loginAttempts := failCounterBase u + 1, lockTime := none }

/-- The claims embedded in a signed login token; `expiresAt` reflects the
fixed `expiresIn: '24h'`. -/
structure AuthToken where
  id : String
  username : String
  role : String
  issuedAt : Nat
  expiresAt : Nat
  deriving DecidableEq

/-- The fixed token lifetime (`expiresIn: '24h'`), in milliseconds. -/
def tokenLifetimeMs : Nat := 24 * 60 * 60 * 1000

/-- `jwt.sign(\x7b id, username, role \x7d, JWT_SECRET, \x7b expiresIn: '24h' \x7d)`. -/
def signToken (id username role : String) (now : Nat) : AuthToken :=
  { id := id, username := username, role := role, issuedAt := now,
    expiresAt := now + tokenLifetimeMs }

/-- Outcome of `POST /auth/login`: 200 with a token, 401 Invalid credentials,
or 423 Account temporarily locked. -/
inductive LoginResult where
  | success (token : AuthToken)
  | invalidCredentials
  | accountLocked
  deriving DecidableEq

/-- Persist a changed account: every stored record with that username (unique
in the store) is replaced by the updated one. -/
def updateUser (db : List User) (username : String) (u2 : User) : List User :=
  db.map (fun v => if v.username == username then u2 else v)

/-- `POST /auth/login` (second half of src/routes/blogs.js): the hard-coded
`admin`/`admin123` superuser bypasses the store with no lockout; otherwise the
account is looked up by username (absent means 401), a Locked account answers
423 before any credential check, a password mismatch increments the failure
counter and answers 401, and a success resets a positive failure counter,
stamps `lastLogin` and signs a 24-hour token from id, username and role. -/
def login (lockDuration : Nat) (db : List User) (now : Nat)
    (username password : String) : List User × LoginResult :=
  if username == "admin" && password == "admin123" then
    (db, .success (signToken "admin-user" "admin" "admin" now))
  else
    match db.find? (fun u => u.username == username) with
    | none => (db, .invalidCredentials)
    | some u =>
      if isLocked lockDuration now u then (db, .accountLocked)
      else if password == u.password then
        (updateUser db username
          { (if 0 < u.loginAttempts then
               { u with loginAttempts := 0, lockTime := none }
             else u) with lastLogin := some now },
         .success (signToken u.id u.username u.role now))
      else
        (updateUser db username (incLoginAttempts lockDuration now u),
         .invalidCredentials)

/-- The store after a sequence of login attempts with the wrong secret `w`,
one per listed timestamp. -/
def failedAttempts (d : Nat) (db : List User) (username w : String) :
    List Nat → List User
  | [] => db
  | t :: ts => failedAttempts d (login d db t username w).1 username w ts

theorem login_locked_helper (d : Nat) (db : List User) (now : Nat)
    (username pw : String) (u : User)
    (hadmin : username ≠ "admin")
    (hfind : db.find? (fun v => v.username == username) = some u)
    (hlock : isLocked d now u = true) :
    login d db now username pw = (db, .accountLocked) := by
  unfold login
  rw [if_neg (by simp [hadmin])]
  simp only [hfind]
  rw [if_pos hlock]

theorem login_fail_step (d : Nat) (db : List User) (now : Nat)
    (username w : String) (u : User)
    (hadmin : username ≠ "admin")
    (hfind : db.find? (fun v => v.username == username) = some u)
    (hnolock : u.lockTime = none)
    (hw : w ≠ u.password) :
    login d db now username w =
      (updateUser db username (incLoginAttempts d now u),
       .invalidCredentials) := by
  unfold login
  rw [if_neg (by simp [hadmin])]
  simp only [hfind]
  rw [if_neg (by unfold isLocked; rw [hnolock]; simp),
    if_neg (by simp [hw])]

theorem find?_updateUser (db : List User) (username : String) (u u2 : User)
    (hfind : db.find? (fun v => v.username == username) = some u)
    (h2 : u2.username = username) :
    (updateUser db username u2).find? (fun v => v.username == username) =
      some u2 := by
  unfold updateUser
  induction db with
  | nil => simp at hfind
  | cons a l ih =>
      rw [List.map_cons]
      by_cases hc : a.username = username
      · rw [if_pos (by simp [hc])]
        exact List.find?_cons_of_pos _ (by simp [h2])
      · rw [if_neg (by simp [hc])]
        rw [List.find?_cons_of_neg _ (by simp [hc])]
        refine ih ?_
        rw [List.find?_cons_of_neg _ (by simp [hc])] at hfind
        exact hfind

theorem incLoginAttempts_unlocked (d t : Nat) (u : User)
    (h : u.lockTime = none) :
    incLoginAttempts d t u =
      if lockThreshold ≤ u.loginAttempts + 1 then
        { u with loginAttempts := u.loginAttempts + 1, lockTime := some t }
      else
        { u with loginAttempts := u.loginAttempts + 1, lockTime := none } := by
  have hl : isLocked d t u = false := by
    unfold isLocked
    rw [h]
  have hb : failCounterBase u = u.loginAttempts := by
    unfold failCounterBase
    rw [h]
  unfold incLoginAttempts
  rw [if_neg (by rw [hl]; simp), hb]

theorem incLoginAttempts_step (d t : Nat) (u : User) (k : Nat)
    (h : u.lockTime = none) (hk : u.loginAttempts = k)
    (hlt : k + 1 < lockThreshold) :
    incLoginAttempts d t u =
      { u with loginAttempts := k + 1, lockTime := none } := by
  rw [incLoginAttempts_unlocked d t u h, hk, if_neg (by omega)]

theorem incLoginAttempts_lock (d t : Nat) (u : User) (k : Nat)
    (h : u.lockTime = none) (hk : u.loginAttempts = k)
    (hge : lockThreshold ≤ k + 1) :
    incLoginAttempts d t u =
      { u with loginAttempts := k + 1, lockTime := some t } := by
  rw [incLoginAttempts_unlocked d t u h, hk, if_pos hge]

/-- C9 (spec-modelled User methods): a login attempt against a non-superuser
account that is currently Locked (lock timestamp + lock duration > now) fails
with AccountLocked whatever the supplied secret and leaves the store
untouched; and a fresh non-superuser account reaches the Locked state after
five consecutive failed logins (its counter at 5 and the lock stamped at the
fifth failure's time), so a sixth attempt with the correct secret still fails
with AccountLocked at any time inside the lock window. -/
theorem login_lockout :
    (∀ (d : Nat) (db : List User) (now : Nat) (username pw : String)
       (u : User),
      username ≠ "admin" →
      db.find? (fun v => v.username == username) = some u →
      isLocked d now u = true →
      login d db now username pw = (db, .accountLocked)) ∧
    (∀ (d : Nat) (db : List User) (username w : String) (u : User)
       (t1 t2 t3 t4 t5 t6 : Nat),
      username ≠ "admin" →
      db.find? (fun v => v.username == username) = some u →
      u.loginAttempts = 0 → u.lockTime = none → w ≠ u.password →
      t6 < t5 + d →
      (failedAttempts d db username w [t1, t2, t3, t4, t5]).find?
          (fun v => v.username == username) =
        some { u with loginAttempts := 5, lockTime := some t5 } ∧
      login d (failedAttempts d db username w [t1, t2, t3, t4, t5]) t6
          username u.password =
        (failedAttempts d db username w [t1, t2, t3, t4, t5],
         .accountLocked)) := by
  constructor
  · intro d db now username pw u hadmin hfind hlock
    exact login_locked_helper d db now username pw u hadmin hfind hlock
  · intro d db username w u t1 t2 t3 t4 t5 t6 hadmin hfind h0 hnl hw h6
    have husr : u.username = username := by
      simpa using List.find?_some hfind
    have hi1 : incLoginAttempts d t1 u =
        { u with loginAttempts := 1, lockTime := none } := by
      have h1 := incLoginAttempts_step d t1 u 0 hnl h0 (by decide)
      exact h1
    have hi2 : incLoginAttempts d t2
          { u with loginAttempts := 1, lockTime := none } =
        { u with loginAttempts := 2, lockTime := none } := by
      have h1 := incLoginAttempts_step d t2
        { u with loginAttempts := 1, lockTime := none } 1 rfl rfl (by decide)
      exact h1
    have hi3 : incLoginAttempts d t3
          { u with loginAttempts := 2, lockTime := none } =
        { u with loginAttempts := 3, lockTime := none } := by
      have h1 := incLoginAttempts_step d t3
        { u with loginAttempts := 2, lockTime := none } 2 rfl rfl (by decide)
      exact h1
    have hi4 : incLoginAttempts d t4
          { u with loginAttempts := 3, lockTime := none } =
        { u with loginAttempts := 4, lockTime := none } := by
      have h1 := incLoginAttempts_step d t4
        { u with loginAttempts := 3, lockTime := none } 3 rfl rfl (by decide)
      exact h1
    have hi5 : incLoginAttempts d t5
          { u with loginAttempts := 4, lockTime := none } =
        { u with loginAttempts := 5, lockTime := some t5 } := by
      have h1 := incLoginAttempts_lock d t5
        { u with loginAttempts := 4, lockTime := none } 4 rfl rfl (by decide)
      exact h1
    have hf1 : (login d db t1 username w).1 =
        updateUser db username { u with loginAttempts := 1, lockTime := none } := by
      rw [login_fail_step d db t1 username w u hadmin hfind hnl hw, hi1]
    have hfind1 := find?_updateUser db username u
      { u with loginAttempts := 1, lockTime := none } hfind husr
    have hf2 : (login d
          (updateUser db username { u with loginAttempts := 1, lockTime := none })
          t2 username w).1 =
        updateUser
          (updateUser db username { u with loginAttempts := 1, lockTime := none })
          username { u with loginAttempts := 2, lockTime := none } := by
      rw [login_fail_step d _ t2 username w
        { u with loginAttempts := 1, lockTime := none } hadmin hfind1 rfl hw, hi2]
    have hfind2 := find?_updateUser
      (updateUser db username { u with loginAttempts := 1, lockTime := none })
      username { u with loginAttempts := 1, lockTime := none }
      { u with loginAttempts := 2, lockTime := none } hfind1 husr
    have hf3 : (login d
          (updateUser
            (updateUser db username { u with loginAttempts := 1, lockTime := none })
            username { u with loginAttempts := 2, lockTime := none })
          t3 username w).1 =
        updateUser
          (updateUser
            (updateUser db username { u with loginAttempts := 1, lockTime := none })
            username { u with loginAttempts := 2, lockTime := none })
          username { u with loginAttempts := 3, lockTime := none } := by
      rw [login_fail_step d _ t3 username w
        { u with loginAttempts := 2, lockTime := none } hadmin hfind2 rfl hw, hi3]
    have hfind3 := find?_updateUser
      (updateUser
        (updateUser db username { u with loginAttempts := 1, lockTime := none })
        username { u with loginAttempts := 2, lockTime := none })
      username { u with loginAttempts := 2, lockTime := none }
      { u with loginAttempts := 3, lockTime := none } hfind2 husr
    have hf4 : (login d
          (updateUser
            (updateUser
              (updateUser db username { u with loginAttempts := 1, lockTime := none })
              username { u with loginAttempts := 2, lockTime := none })
            username { u with loginAttempts := 3, lockTime := none })
          t4 username w).1 =
        updateUser
          (updateUser
            (updateUser
              (updateUser db username { u with loginAttempts := 1, lockTime := none })
              username { u with loginAttempts := 2, lockTime := none })
            username { u with loginAttempts := 3, lockTime := none })
          username { u with loginAttempts := 4, lockTime := none } := by
      rw [login_fail_step d _ t4 username w
        { u with loginAttempts := 3, lockTime := none } hadmin hfind3 rfl hw, hi4]
    have hfind4 := find?_updateUser
      (updateUser
        (updateUser
          (updateUser db username { u with loginAttempts := 1, lockTime := none })
          username { u with loginAttempts := 2, lockTime := none })
        username { u with loginAttempts := 3, lockTime := none })
      username { u with loginAttempts := 3, lockTime := none }
      { u with loginAttempts := 4, lockTime := none } hfind3 husr
    have hf5 : (login d
          (updateUser
            (updateUser
              (updateUser
                (updateUser db username { u with loginAttempts := 1, lockTime := none })
                username { u with loginAttempts := 2, lockTime := none })
              username { u with loginAttempts := 3, lockTime := none })
            username { u with loginAttempts := 4, lockTime := none })
          t5 username w).1 =
        updateUser
          (updateUser
            (updateUser
              (updateUser
                (updateUser db username { u with loginAttempts := 1, lockTime := none })
                username { u with loginAttempts := 2, lockTime := none })
              username { u with loginAttempts := 3, lockTime := none })
            username { u with loginAttempts := 4, lockTime := none })
          username { u with loginAttempts := 5, lockTime := some t5 } := by
      rw [login_fail_step d _ t5 username w
        { u with loginAttempts := 4, lockTime := none } hadmin hfind4 rfl hw, hi5]
    have hfind5 := find?_updateUser
      (updateUser
        (updateUser
          (updateUser
            (updateUser db username { u with loginAttempts := 1, lockTime := none })
            username { u with loginAttempts := 2, lockTime := none })
          username { u with loginAttempts := 3, lockTime := none })
        username { u with loginAttempts := 4, lockTime := none })
      username { u with loginAttempts := 4, lockTime := none }
      { u with loginAttempts := 5, lockTime := some t5 } hfind4 husr
    have hchain : failedAttempts d db username w [t1, t2, t3, t4, t5] =
        updateUser
          (updateUser
            (updateUser
              (updateUser
                (updateUser db username { u with loginAttempts := 1, lockTime := none })
                username { u with loginAttempts := 2, lockTime := none })
              username { u with loginAttempts := 3, lockTime := none })
            username { u with loginAttempts := 4, lockTime := none })
          username { u with loginAttempts := 5, lockTime := some t5 } := by
      simp only [failedAttempts]
      rw [hf1, hf2, hf3, hf4, hf5]
    have hl5 : isLocked d t6 { u with loginAttempts := 5, lockTime := some t5 } =
        true := by
      unfold isLocked
      simpa using h6
    constructor
    · rw [hchain]
      exact hfind5
    · rw [hchain]
      exact login_locked_helper d _ t6 username u.password
        { u with loginAttempts := 5, lockTime := some t5 } hadmin hfind5 hl5

/-- A currently-locked account (lock stamped at time 100). -/
def lockedCarl : User :=
  { id := "u2", username := "carl", password := "secret9", email := "c@x.io",
    role := "admin", active := true, loginAttempts := 5,
    lockTime := some 100, lastLogin := none }

/-- A fresh account with no failed attempts and no lock. -/
def bobUser : User :=
  { id := "u1", username := "bob", password := "hunter2", email := "b@x.io",
    role := "admin", active := true, loginAttempts := 0, lockTime := none,
    lastLogin := none }

theorem login_lockout_witness :
    (("carl" : String) ≠ "admin" ∧
     [lockedCarl].find? (fun v => v.username == "carl") = some lockedCarl ∧
     isLocked 1000 500 lockedCarl = true ∧
     login 1000 [lockedCarl] 500 "carl" lockedCarl.password =
       ([lockedCarl], .accountLocked)) ∧
    (("bob" : String) ≠ "admin" ∧
     [bobUser].find? (fun v => v.username == "bob") = some bobUser ∧
     bobUser.loginAttempts = 0 ∧ bobUser.lockTime = none ∧
     ("nope" : String) ≠ bobUser.password ∧ 6 < 5 + 1000 ∧
     ((failedAttempts 1000 [bobUser] "bob" "nope" [1, 2, 3, 4, 5]).find?
          (fun v => v.username == "bob") =
        some { bobUser with loginAttempts := 5, lockTime := some 5 } ∧
      login 1000 (failedAttempts 1000 [bobUser] "bob" "nope" [1, 2, 3, 4, 5])
          6 "bob" bobUser.password =
        (failedAttempts 1000 [bobUser] "bob" "nope" [1, 2, 3, 4, 5],
         .accountLocked))) :=
  ⟨⟨by decide, by decide, by decide,
    login_lockout.1 1000 [lockedCarl] 500 "carl" lockedCarl.password lockedCarl
      (by decide) (by decide) (by decide)⟩,
   by decide, by decide, by decide, by decide, by decide, by decide,
   login_lockout.2 1000 [bobUser] "bob" "nope" bobUser 1 2 3 4 5 6
     (by decide) (by decide) (by decide) (by decide) (by decide) (by decide)⟩

end Backend
